import Mathlib

/-!
Shallow embedding of the IPv4 address library in `src/ip.js` (the UMD
version, whose line numbers the claims cite). JavaScript strings are
modelled as `List Char`, numbers as `Int` (with a `ℚ` variant where a
non-integer input matters), and thrown exceptions as `Except JsErr`.
-/

/-- Kinds of exception the library throws: `TypeError`, and
`Error("Invalid IPv4 address ...")`. The code never throws a netmask
error: `netmaskToPrefixSize` signals failure with `null`. -/
inductive JsErr where
  | typeError
  | invalidAddress
deriving DecidableEq

instance {ε α : Type} [DecidableEq ε] [DecidableEq α] : DecidableEq (Except ε α)
  | .error e, .error f =>
    if h : e = f then .isTrue (by rw [h])
    else .isFalse fun hc => by cases hc; exact h rfl
  | .error _, .ok _ => .isFalse fun hc => by cases hc
  | .ok _, .error _ => .isFalse fun hc => by cases hc
  | .ok a, .ok b =>
    if h : a = b then .isTrue (by rw [h])
    else .isFalse fun hc => by cases hc; exact h rfl

/-- The character of a single decimal (or binary) digit value. -/
def digitCh (n : Nat) : Char := Char.ofNat (48 + n)

/-- Digits of a natural number in base `b`, most significant first, no
leading zeros ("0" for zero): JavaScript `Number#toString(b)` for a
nonnegative integer. Structural recursion on a fuel argument; fuel
`n + 1` is enough because the quotient shrinks at every step. -/
def natDigitsAux (b : Nat) : Nat → Nat → List Char
  | 0, _ => []
  | fuel + 1, n => if n < b then [digitCh n] else natDigitsAux b fuel (n / b) ++ [digitCh (n % b)]

/-- Decimal rendering of a nonnegative integer (JS `String(n)`). -/
def natToDecimal (n : Nat) : List Char := natDigitsAux 10 (n + 1) n

/-- Binary rendering of a nonnegative integer (JS `n.toString(2)`): note
that it carries no leading zeros. -/
def natToBinary (n : Nat) : List Char := natDigitsAux 2 (n + 1) n

/-- Helper of `splitDot`: prepend a character to the first group. -/
def consHead (c : Char) : List (List Char) → List (List Char)
  | [] => [[c]]
  | g :: gs => (c :: g) :: gs

/-- JavaScript `s.split('.')`: the groups of characters between dots.
Empty groups are kept, and the empty string splits to `[""]`. -/
def splitDot : List Char → List (List Char)
  | [] => [[]]
  | c :: cs => if c = '.' then [] :: splitDot cs else consHead c (splitDot cs)

/-- Value of the leading run of decimal digits, accumulated left to
right; stops at the first non-digit (trailing text is ignored). -/
def digitsValue : List Char → Nat → Nat
  | [], acc => acc
  | c :: cs, acc => if c.isDigit then digitsValue cs (acc * 10 + (c.toNat - 48)) else acc

/-- Whether the list starts with a decimal digit. -/
def startsWithDigit : List Char → Bool
  | [] => false
  | c :: _ => c.isDigit

/-- JavaScript `parseInt(s, 10)`: skip leading whitespace, read an
optional sign and then a run of decimal digits, ignoring anything after
the run; `none` models `NaN` (no digits found). -/
def jsParseInt10 (s : List Char) : Option Int :=
  let t := s.dropWhile fun c => c = ' ' ∨ c = '\t' ∨ c = '\n' ∨ c = '\r'
  match t with
  | '-' :: rest => if startsWithDigit rest then some (-(digitsValue rest 0 : Int)) else none
  | '+' :: rest => if startsWithDigit rest then some ((digitsValue rest 0 : Int)) else none
  | _ => if startsWithDigit t then some ((digitsValue t 0 : Int)) else none

/-- `parseInt(decimals[i], 10)` where the segment may be missing: a
missing index reads as `undefined`, and `parseInt(undefined, 10)` scans
the text "undefined", finds no digit and yields `NaN` (`none`). -/
def jsParseIntOpt : Option (List Char) → Option Int
  | none => none
  | some l => jsParseInt10 l

/-- The loop of `ipv4DotNotationToNumber` over the first four segments:
`parseInt(decimals[i], 10)`, the `NaN`/range check `decimal !== decimal
|| decimal < 0 || decimal > 255`, and the accumulation `ipv4Numeric =
ipv4Numeric * 256 + decimal`. -/
def accumOctets : List (Option (List Char)) → Nat → Except JsErr Nat
  | [], acc => .ok acc
  | o :: rest, acc =>
    match jsParseIntOpt o with
    | none => .error .invalidAddress
    | some d =>
      if d < 0 ∨ 255 < d then .error .invalidAddress
      else accumOctets rest (acc * 256 + d.toNat)

/-- `ipv4DotNotationToNumber` of src/ip.js: split on `.` and fold the
first four segments. (The `typeof` guard is carried by the embedding's
input type; extra segments beyond the fourth are never looked at.) -/
def ipv4DotNotationToNumber (s : List Char) : Except JsErr Nat :=
  let decimals := splitDot s
  accumOctets [decimals[0]?, decimals[1]?, decimals[2]?, decimals[3]?] 0

/-- The formatting loop of `ipv4NumberToDotNotation` on an in-range
integer: `ipv4Numeric % 256`, then three times divide by 256 (floor) and
prepend the next octet and a dot. -/
def fmt4 (n : Nat) : List Char :=
  let r0 := natToDecimal (n % 256)
  let n1 := n / 256
  let r1 := natToDecimal (n1 % 256) ++ '.' :: r0
  let n2 := n1 / 256
  let r2 := natToDecimal (n2 % 256) ++ '.' :: r1
  let n3 := n2 / 256
  natToDecimal (n3 % 256) ++ '.' :: r2

/-- `ipv4NumberToDotNotation` of src/ip.js on integer number arguments:
range check `ipv4Numeric < 0 || ipv4Numeric > 4294967295` throws
`Error`, then the base-256 formatting loop. (The `typeof` guard is
carried by the input type; `ipv4NumberToDotNotationQ` below extends this
model to non-integer numbers.) -/
def ipv4NumberToDotNotation (n : Int) : Except JsErr (List Char) :=
  if n < 0 ∨ 4294967295 < n then .error .invalidAddress
  else .ok (fmt4 n.toNat)

/-- The value object returned by `ip(address)`: the numeric value and the
human-readable string it keeps. For a string argument the stored string
is the argument itself; for a number it is the formatted value. -/
structure Address where
  numeric : Nat
  notationStr : List Char
deriving DecidableEq

/-- An `ip(address)` argument: JavaScript dispatches on `typeof`, here a
sum of the two accepted shapes (any other type throws `TypeError`,
carried by the embedding's input type). -/
inductive AddressArg where
  | str (s : List Char)
  | num (n : Int)

/-- The `ip` constructor of src/ip.js: a string is parsed and kept
verbatim as the string form; a number is formatted (validating it) and
kept as the numeric form. -/
def ip : AddressArg → Except JsErr Address
  | .str s => (ipv4DotNotationToNumber s).map fun v => { numeric := v, notationStr := s }
  | .num n => (ipv4NumberToDotNotation n).map fun t => { numeric := n.toNat, notationStr := t }

/-- A netmask argument: a string (dotted or plain numeric text) or a
number, as `netmaskToPrefixSize` dispatches on `typeof`. -/
inductive NetmaskArg where
  | str (s : List Char)
  | num (n : Int)

/-- JavaScript `s.indexOf(c)` as an option (`none` for `-1`). -/
def firstIndexOfC (c : Char) : List Char → Option Nat
  | [] => none
  | x :: xs => if x = c then some 0 else (firstIndexOfC c xs).map (· + 1)

/-- JavaScript `s.lastIndexOf(c)` as an option (`none` for `-1`). -/
def lastIndexOfC (c : Char) (l : List Char) : Option Nat :=
  match firstIndexOfC c l.reverse with
  | none => none
  | some i => some (l.length - 1 - i)

/-- `netmaskToPrefixSize` of src/ip.js. A dotted string is parsed as an
address (propagating its exception), rendered in binary without leading
zeros, and accepted iff both a last `1` and a first `0` exist with the
last `1` before the first `0`; the result is the first `0`'s index. A
plain string goes through `parseInt` and a `[0, 32]` range check, and a
number through the same range check (`netmask === netmask` is the `NaN`
test, always true on `Int`). `Option.none` models the `null` it returns
on a validation failure. -/
def netmaskToPrefixSize : NetmaskArg → Except JsErr (Option Int)
  | .str s =>
    if s.contains '.' then
      match ipv4DotNotationToNumber s with
      | .error e => .error e
      | .ok v =>
        let b := natToBinary v
        match lastIndexOfC '1' b, firstIndexOfC '0' b with
        | some lastOne, some firstZero =>
          if lastOne < firstZero then .ok (some (firstZero : Int)) else .ok none
        | some _, none => .ok none
        | none, _ => .ok none
    else
      match jsParseInt10 s with
      | none => .ok none
      | some k => if 0 ≤ k ∧ k ≤ 32 then .ok (some k) else .ok none
  | .num n => if 0 ≤ n ∧ n ≤ 32 then .ok (some n) else .ok none

/-- Numeric coercion JavaScript applies to the prefix in `32 -
prefixSize` and `prefixSize < 31` when `netmaskToPrefixSize` returned
`null` (`Number(null)` is `0`). -/
def prefixNum : Option Int → Int
  | none => 0
  | some k => k

/-- String coercion JavaScript applies in `'/' + prefixSize` (`null`
prints as "null"; a valid prefix is a nonnegative integer). -/
def prefixText : Option Int → List Char
  | none => "null".data
  | some k => natToDecimal k.toNat

/-- `(0xffffffff << bits) >>> 0` with JavaScript 32-bit shift semantics:
the shift count is reduced modulo 32 and the shifted value is read back
as an unsigned 32-bit integer. -/
def shiftMask (bits : Nat) : Nat := (0xffffffff * 2 ^ (bits % 32)) % 2 ^ 32

/-- The subnet description object: the numeric values captured by the
closure and the formatted fields of the returned object literal
(`network`/`broadcast` are `undefined` for prefixes of 31 and over). -/
structure Subnet where
  size : Int
  networkNumeric : Option Int
  broadcastNumeric : Option Int
  firstNumeric : Int
  lastNumeric : Int
  network : Option (List Char)
  broadcast : Option (List Char)
  first : List Char
  last : List Char
  cidr : List Char
  value : Nat
deriving DecidableEq

/-- `subnet(ipNumeric, netmask)` of src/ip.js. Every
`ipv4NumberToDotNotation` call may throw, in the source's evaluation
order (cidr is computed in the variable declarations, then first, last,
network, broadcast). `maskedAddress` is `(ipNumeric & ((0xffffffff <<
bits) >>> 0)) >>> 0` and `size` is `Math.pow(2, bits)`, exact for `bits
≤ 32`. The subtraction `maskedAddress + size - 2` happens on `Int`, as
in JavaScript. -/
def subnet (ipNumeric : Nat) (netmask : NetmaskArg) : Except JsErr Subnet :=
  match netmaskToPrefixSize netmask with
  | .error e => .error e
  | .ok p =>
    let prefixSize : Int := prefixNum p
    let bits : Nat := (32 - prefixSize).toNat
    let maskedAddress : Nat := ipNumeric &&& shiftMask bits
    let size : Int := 2 ^ bits
    match ipv4NumberToDotNotation (ipNumeric : Int) with
    | .error e => .error e
    | .ok base =>
      let cidr := base ++ '/' :: prefixText p
      if prefixSize < 31 then
        let firstNumeric : Int := (maskedAddress : Int) + 1
        let lastNumeric : Int := (maskedAddress : Int) + size - 2
        let broadcastNumeric : Int := (maskedAddress : Int) + size - 1
        let networkNumeric : Int := (maskedAddress : Int)
        match ipv4NumberToDotNotation firstNumeric with
        | .error e => .error e
        | .ok first =>
          match ipv4NumberToDotNotation lastNumeric with
          | .error e => .error e
          | .ok last =>
            match ipv4NumberToDotNotation networkNumeric with
            | .error e => .error e
            | .ok network =>
              match ipv4NumberToDotNotation broadcastNumeric with
              | .error e => .error e
              | .ok broadcast =>
                .ok { size := size, networkNumeric := some networkNumeric,
                      broadcastNumeric := some broadcastNumeric,
                      firstNumeric := firstNumeric, lastNumeric := lastNumeric,
                      network := some network, broadcast := some broadcast,
                      first := first, last := last, cidr := cidr, value := ipNumeric }
      else
        let firstNumeric : Int := (ipNumeric : Int)
        let lastNumeric : Int := (maskedAddress : Int) + size - 1
        match ipv4NumberToDotNotation firstNumeric with
        | .error e => .error e
        | .ok first =>
          match ipv4NumberToDotNotation lastNumeric with
          | .error e => .error e
          | .ok last =>
            .ok { size := size, networkNumeric := none, broadcastNumeric := none,
                  firstNumeric := firstNumeric, lastNumeric := lastNumeric,
                  network := none, broadcast := none,
                  first := first, last := last, cidr := cidr, value := ipNumeric }

/-- JavaScript `a || b` where the left operand is a captured numeric
variable that may be `undefined`: `undefined` and `0` are both falsy. -/
def jsOrNum (o : Option Int) (b : Int) : Int :=
  match o with
  | none => b
  | some v => if v = 0 then b else v

/-- The subnet's `contains(address)`: the candidate goes through `ip`
(propagating its exceptions), then `address >= (networkNumeric ||
firstNumeric) && address <= (broadcastNumeric || lastNumeric)`, the
relational operators coercing the address object to its numeric value. -/
def Subnet.contains (sn : Subnet) (address : AddressArg) : Except JsErr Bool :=
  match ip address with
  | .error e => .error e
  | .ok a =>
    .ok (decide (jsOrNum sn.networkNumeric sn.firstNumeric ≤ (a.numeric : Int) ∧
                 (a.numeric : Int) ≤ jsOrNum sn.broadcastNumeric sn.lastNumeric))

/-- `address.mask(netmask)` of the main constructor: a subnet built from
this address's numeric value. -/
def Address.mask (a : Address) (netmask : NetmaskArg) : Except JsErr Subnet :=
  subnet a.numeric netmask

/-- JavaScript `%` for the nonnegative finite numbers reaching it here:
dividend minus divisor times the truncated quotient (truncation equals
floor on nonnegative operands). -/
def jsModQ (a b : ℚ) : ℚ := a - b * (⌊a / b⌋ : ℤ)

/-- Decimal digits after the point of a fractional part in `[0, 1)`,
stopping when the remainder is zero; fuel-bounded recursion. -/
def fracDigits : Nat → ℚ → List Char
  | 0, _ => []
  | fuel + 1, f =>
    if f = 0 then []
    else digitCh (⌊f * 10⌋).toNat :: fracDigits fuel (f * 10 - (⌊f * 10⌋ : ℤ))

/-- JavaScript `String(q)` for a nonnegative number whose decimal
expansion terminates (the only values the claims evaluate): the integer
part in decimal, then `.` and the fractional digits when nonzero. -/
def qToDecimal (q : ℚ) : List Char :=
  let w : ℤ := ⌊q⌋
  let f : ℚ := q - (w : ℚ)
  if f = 0 then natToDecimal w.toNat
  else natToDecimal w.toNat ++ '.' :: fracDigits 64 f

/-- `ipv4NumberToDotNotation` of src/ip.js over the full `number` input
space (modelled by `ℚ`; the computation on the dyadic rationals used
here is exact in binary floating point): the guard only checks `typeof`,
so a non-integer value passes the range check and goes through the same
`%`/`Math.floor` loop, its fractional part surviving in the last octet. -/
def ipv4NumberToDotNotationQ (q : ℚ) : Except JsErr (List Char) :=
  if q < 0 ∨ 4294967295 < q then .error .invalidAddress
  else
    let r0 := qToDecimal (jsModQ q 256)
    let q1 : ℚ := (⌊q / 256⌋ : ℤ)
    let r1 := qToDecimal (jsModQ q1 256) ++ '.' :: r0
    let q2 : ℚ := (⌊q1 / 256⌋ : ℤ)
    let r2 := qToDecimal (jsModQ q2 256) ++ '.' :: r1
    let q3 : ℚ := (⌊q2 / 256⌋ : ℤ)
    .ok (qToDecimal (jsModQ q3 256) ++ '.' :: r2)

example : ipv4DotNotationToNumber "127.0.0.1".data = .ok 2130706433 := by decide
example : ipv4DotNotationToNumber "256.1.1.1".data = .error .invalidAddress := by decide
example : ipv4NumberToDotNotation 2130706433 = .ok "127.0.0.1".data := by decide
example : natToBinary 16776960 = "111111111111111100000000".data := by decide
example : netmaskToPrefixSize (.str "255.255.255.0".data) = .ok (some 24) := by decide
example : netmaskToPrefixSize (.str "255.0.255.0".data) = .ok none := by decide
example : netmaskToPrefixSize (.str "0.255.255.0".data) = .ok (some 16) := by decide
example : netmaskToPrefixSize (.str "255.255.255.255".data) = .ok none := by decide
example : netmaskToPrefixSize (.str "0.0.0.0".data) = .ok none := by decide
example : netmaskToPrefixSize (.str "abc".data) = .ok none := by decide
example : netmaskToPrefixSize (.num 33) = .ok none := by decide
example : (subnet 2130706433 (.num 24)).map Subnet.network = .ok (some "127.0.0.0".data) := by decide
example : (subnet 2130706433 (.num 24)).map Subnet.broadcast = .ok (some "127.0.0.255".data) := by decide
example : subnet 1 (.num 0) = .error .invalidAddress := by decide
example : (subnet 0 (.num 0)).map Subnet.size = .ok 4294967296 := by decide
example : (subnet 0 (.num 33)).map Subnet.cidr = .ok "0.0.0.0/null".data := by decide
example : (subnet 5 (.num 24)).bind (fun sn => sn.contains (.str "0.0.0.0".data)) = .ok false := by decide

theorem consHead_ne_nil (c : Char) (gs : List (List Char)) : consHead c gs ≠ [] := by
  cases gs <;> simp [consHead]

theorem splitDot_no_dot (l : List Char) (h : '.' ∉ l) : splitDot l = [l] := by
  induction l with
  | nil => rfl
  | cons c cs ih =>
    have hc : ¬ c = '.' := fun e => h (by simp [e])
    have hcs : '.' ∉ cs := fun m => h (List.mem_cons_of_mem _ m)
    simp only [splitDot, if_neg hc, ih hcs, consHead]

theorem splitDot_append (l₁ l₂ : List Char) (h : '.' ∉ l₁) :
    splitDot (l₁ ++ '.' :: l₂) = l₁ :: splitDot l₂ := by
  induction l₁ with
  | nil => simp [splitDot]
  | cons c cs ih =>
    have hc : ¬ c = '.' := fun e => h (by simp [e])
    have hcs : '.' ∉ cs := fun m => h (List.mem_cons_of_mem _ m)
    simp only [List.cons_append, splitDot, if_neg hc, List.append_eq, ih hcs, consHead]

theorem accumOctets_err_of_none :
    ∀ (slots : List (Option (List Char))), none ∈ slots →
      ∀ acc, accumOctets slots acc = .error .invalidAddress := by
  intro slots
  induction slots with
  | nil => intro h; cases h
  | cons o rest ih =>
    intro h acc
    rcases List.mem_cons.mp h with h0 | h1
    · rw [← h0]
      simp [accumOctets, jsParseIntOpt]
    · cases hob : jsParseIntOpt o with
      | none => simp [accumOctets, hob]
      | some d =>
        simp only [accumOctets, hob]
        by_cases hd : d < 0 ∨ 255 < d
        · rw [if_pos hd]
        · rw [if_neg hd]; exact ih h1 _

theorem accumOctets_step (l : List Char) (m : Nat) (hm : m < 256)
    (hp : jsParseInt10 l = some (m : Int)) (rest : List (Option (List Char))) (acc : Nat) :
    accumOctets (some l :: rest) acc = accumOctets rest (acc * 256 + m) := by
  have hcond : ¬ ((m : Int) < 0 ∨ 255 < (m : Int)) := by omega
  simp only [accumOctets, jsParseIntOpt, hp, if_neg hcond, Int.toNat_ofNat]

set_option maxRecDepth 4096 in
theorem octet_digits_ok :
    ∀ m : Fin 256, jsParseInt10 (natToDecimal m.val) = some (m.val : Int) ∧
      '.' ∉ natToDecimal m.val := by
  decide

theorem octet_digits_ok' (m : Nat) (hm : m < 256) :
    jsParseInt10 (natToDecimal m) = some (m : Int) ∧ '.' ∉ natToDecimal m :=
  octet_digits_ok ⟨m, hm⟩

theorem format_nat_ok (n : Nat) (h : n ≤ 4294967295) :
    ipv4NumberToDotNotation (n : Int) = .ok (fmt4 n) := by
  have hcond : ¬ ((n : Int) < 0 ∨ (4294967295 : Int) < (n : Int)) := by omega
  simp only [ipv4NumberToDotNotation, if_neg hcond, Int.toNat_ofNat]

/-- C1: the claim says a prefix length of 0 gives mask 0, hence network
"0.0.0.0", broadcast "255.255.255.255", size 2^32, for every valid
address, with construction succeeding. In the code `0xffffffff << 32`
wraps to a shift by 0 (JavaScript reduces shift counts mod 32), so the
mask is all ones, the masked address equals the input address, and for
any nonzero address the broadcast value overflows the formatter, which
throws `Invalid IPv4 address`: construction fails. Only address 0 shows
the claimed fields. -/
theorem subnet_prefix_zero_behavior :
    shiftMask 32 = 4294967295 ∧
    subnet 1 (.num 0) = .error .invalidAddress ∧
    (subnet 0 (.num 0)).map Subnet.size = .ok 4294967296 ∧
    (subnet 0 (.num 0)).map Subnet.network = .ok (some "0.0.0.0".data) ∧
    (subnet 0 (.num 0)).map Subnet.broadcast = .ok (some "255.255.255.255".data) := by
  decide

/-- C2: the claim says normalization never returns a prefix length for a
non-contiguous dotted mask, naming "0.255.255.0" as an example. The
code renders the mask value with `toString(2)`, which drops leading
zeros, so "0.255.255.0" (bits 0x00FFFF00) reads as sixteen ones followed
by eight zeros and normalizes to prefix 16. ("255.0.255.0" is rejected
as the claim expects.) -/
theorem netmask_leading_zero_mask_accepted :
    netmaskToPrefixSize (.str "0.255.255.0".data) = .ok (some 16) ∧
    netmaskToPrefixSize (.str "255.0.255.0".data) = .ok none := by
  decide

/-- C3: the claim says "255.255.255.255" normalizes to 32 and "0.0.0.0"
to 0. In the code the all-ones mask has no first `0` and the all-zeros
mask has no last `1`, so the guard `lastIndexOfOne !== -1 &&
firstIndexOfZero !== -1` fails and both return `null` (failure) — even
though the numeric forms 32 and 0 are accepted. -/
theorem netmask_all_ones_all_zeros_rejected :
    netmaskToPrefixSize (.str "255.255.255.255".data) = .ok none ∧
    netmaskToPrefixSize (.str "0.0.0.0".data) = .ok none ∧
    netmaskToPrefixSize (.num 32) = .ok (some 32) ∧
    netmaskToPrefixSize (.num 0) = .ok (some 0) := by
  decide

/-- C4: the claim says `contains` is exactly `network ≤ c ≤ broadcast`
for prefixes below 31, including when the network address is numerically
0. The code's lower bound is `networkNumeric || firstNumeric`, and a
network value of 0 is falsy in JavaScript, so the bound silently becomes
`firstNumeric` (network + 1): for the subnet of 0.0.0.5/24 the candidate
"0.0.0.0" lies between network 0 and broadcast 255 but `contains`
returns false. -/
theorem contains_excludes_zero_network :
    (subnet 5 (.num 24)).map Subnet.networkNumeric = .ok (some 0) ∧
    (subnet 5 (.num 24)).map Subnet.broadcastNumeric = .ok (some 255) ∧
    (subnet 5 (.num 24)).bind (fun sn => sn.contains (.str "0.0.0.0".data)) = .ok false ∧
    (subnet 5 (.num 24)).bind (fun sn => sn.contains (.str "0.0.0.1".data)) = .ok true := by
  decide

/-- C5: the claim says an invalid netmask (such as 33) makes subnet
construction fail with `InvalidNetmask` and no object. The code's
normalizer returns `null`, which `subnet` never checks: `32 - null` is
32, `null < 31` is true, and for address 0 construction succeeds,
returning a bogus object of size 2^32 whose CIDR string is
"0.0.0.0/null". For nonzero addresses the broadcast computation
overflows and the error actually thrown is the formatter's
`Invalid IPv4 address`, not a netmask error. -/
theorem subnet_invalid_netmask_constructed :
    netmaskToPrefixSize (.num 33) = .ok none ∧
    (subnet 0 (.num 33)).map Subnet.size = .ok 4294967296 ∧
    (subnet 0 (.num 33)).map Subnet.cidr = .ok "0.0.0.0/null".data ∧
    subnet 1 (.num 33) = .error .invalidAddress := by
  decide

/-- C6 (amended): a string whose split on "." yields fewer than four
segments fails with `InvalidAddress`, because a missing segment parses
as `NaN`; but a string with more than four segments is not rejected —
the loop reads only the first four (see the counterexample). -/
theorem parse_fewer_than_four_segments_fails (s : List Char)
    (h : (splitDot s).length < 4) :
    ipv4DotNotationToNumber s = .error .invalidAddress := by
  have h3 : (splitDot s)[3]? = none := List.getElem?_eq_none (by omega)
  simp only [ipv4DotNotationToNumber]
  exact accumOctets_err_of_none _ (by rw [h3]; simp) 0

/-- Witness for C6's amended theorem at the claim's own example "1.2.3". -/
theorem parse_fewer_than_four_segments_fails_witness :
    (splitDot "1.2.3".data).length < 4 ∧
    ipv4DotNotationToNumber "1.2.3".data = .error .invalidAddress :=
  ⟨by decide, parse_fewer_than_four_segments_fails _ (by decide)⟩

/-- Counterexample to C6 as stated: "1.2.3.4.5" splits into five
segments, yet parsing succeeds, returning the value of 1.2.3.4 — the
fifth segment is silently ignored. -/
theorem parse_extra_segments_accepted :
    (splitDot "1.2.3.4.5".data).length = 5 ∧
    ipv4DotNotationToNumber "1.2.3.4.5".data = .ok 16909060 := by
  decide

/-- C8: the round-trip law: formatting any integer in [0, 4294967295]
and parsing the result returns the same integer. -/
theorem parse_format_roundtrip (n : Nat) (h : n ≤ 4294967295) :
    (ipv4NumberToDotNotation (n : Int)).bind ipv4DotNotationToNumber = .ok n := by
  rw [format_nat_ok n h]
  show ipv4DotNotationToNumber (fmt4 n) = .ok n
  have ha : n / 256 / 256 / 256 % 256 < 256 := Nat.mod_lt _ (by norm_num)
  have hb : n / 256 / 256 % 256 < 256 := Nat.mod_lt _ (by norm_num)
  have hc : n / 256 % 256 < 256 := Nat.mod_lt _ (by norm_num)
  have hd : n % 256 < 256 := Nat.mod_lt _ (by norm_num)
  obtain ⟨hpa, hna⟩ := octet_digits_ok' _ ha
  obtain ⟨hpb, hnb⟩ := octet_digits_ok' _ hb
  obtain ⟨hpc, hnc⟩ := octet_digits_ok' _ hc
  obtain ⟨hpd, hnd⟩ := octet_digits_ok' _ hd
  have hsplit : splitDot (fmt4 n) =
      [natToDecimal (n / 256 / 256 / 256 % 256), natToDecimal (n / 256 / 256 % 256),
        natToDecimal (n / 256 % 256), natToDecimal (n % 256)] := by
    show splitDot (natToDecimal (n / 256 / 256 / 256 % 256) ++ '.' ::
        (natToDecimal (n / 256 / 256 % 256) ++ '.' ::
          (natToDecimal (n / 256 % 256) ++ '.' :: natToDecimal (n % 256)))) = _
    rw [splitDot_append _ _ hna, splitDot_append _ _ hnb, splitDot_append _ _ hnc,
      splitDot_no_dot _ hnd]
  simp only [ipv4DotNotationToNumber, hsplit]
  show accumOctets [some (natToDecimal (n / 256 / 256 / 256 % 256)),
      some (natToDecimal (n / 256 / 256 % 256)), some (natToDecimal (n / 256 % 256)),
      some (natToDecimal (n % 256))] 0 = .ok n
  rw [accumOctets_step _ _ ha hpa, accumOctets_step _ _ hb hpb,
    accumOctets_step _ _ hc hpc, accumOctets_step _ _ hd hpd]
  show Except.ok ((((0 * 256 + n / 256 / 256 / 256 % 256) * 256 + n / 256 / 256 % 256) * 256 +
      n / 256 % 256) * 256 + n % 256) = Except.ok n
  have harith : (((0 * 256 + n / 256 / 256 / 256 % 256) * 256 + n / 256 / 256 % 256) * 256 +
      n / 256 % 256) * 256 + n % 256 = n := by omega
  rw [harith]

/-- Witness for C8 at 2130706433, the number of "127.0.0.1". -/
theorem parse_format_roundtrip_witness :
    (2130706433 : Nat) ≤ 4294967295 ∧
    (ipv4NumberToDotNotation ((2130706433 : Nat) : Int)).bind ipv4DotNotationToNumber =
      .ok 2130706433 :=
  ⟨by decide, parse_format_roundtrip 2130706433 (by decide)⟩

theorem netmask_num32_ok : netmaskToPrefixSize (.num 32) = .ok (some 32) := by decide

/-- C9: a subnet with prefix 32 is a single host: size 1, first and last
both equal to the dot-decimal form of the address, and no network or
broadcast fields. -/
theorem subnet_prefix32_single_host (n : Nat) (h : n ≤ 4294967295) :
    ∃ sn, subnet n (.num 32) = .ok sn ∧
      ipv4NumberToDotNotation (n : Int) = .ok sn.first ∧
      sn.size = 1 ∧ sn.first = sn.last ∧
      sn.firstNumeric = (n : Int) ∧ sn.lastNumeric = (n : Int) ∧
      sn.network = none ∧ sn.broadcast = none := by
  have hfmt := format_nat_ok n h
  have hmask : n &&& shiftMask 0 = n := by
    have h2 : shiftMask 0 = 2 ^ 32 - 1 := by decide
    rw [h2, Nat.and_pow_two_sub_one_eq_mod]
    exact Nat.mod_eq_of_lt (by omega)
  refine ⟨{ size := 1, networkNumeric := none, broadcastNumeric := none,
            firstNumeric := (n : Int), lastNumeric := (n : Int),
            network := none, broadcast := none, first := fmt4 n, last := fmt4 n,
            cidr := fmt4 n ++ '/' :: prefixText (some 32), value := n },
          ?_, hfmt, rfl, rfl, rfl, rfl, rfl, rfl⟩
  unfold subnet
  simp only [netmask_num32_ok, prefixNum]
  norm_num [hmask]
  rw [hfmt]

/-- Witness for C9 at 167772165, the number of "10.0.0.5". -/
theorem subnet_prefix32_single_host_witness :
    (167772165 : Nat) ≤ 4294967295 ∧
    ∃ sn, subnet 167772165 (.num 32) = .ok sn ∧
      ipv4NumberToDotNotation ((167772165 : Nat) : Int) = .ok sn.first ∧
      sn.size = 1 ∧ sn.first = sn.last ∧
      sn.firstNumeric = ((167772165 : Nat) : Int) ∧ sn.lastNumeric = ((167772165 : Nat) : Int) ∧
      sn.network = none ∧ sn.broadcast = none :=
  ⟨by decide, subnet_prefix32_single_host 167772165 (by decide)⟩

/-- C7 (amended): the formatter's only `TypeError` is for arguments
that are not numbers at all; every number in [0, 4294967295], integer or
not, passes the range check and is formatted into a string. -/
theorem formatQ_in_range_ok (q : ℚ) (h0 : 0 ≤ q) (h1 : q ≤ 4294967295) :
    ∃ s, ipv4NumberToDotNotationQ q = .ok s := by
  have hcond : ¬ (q < 0 ∨ (4294967295 : ℚ) < q) := by
    push_neg
    exact ⟨h0, h1⟩
  exact ⟨_, if_neg hcond⟩

/-- Witness for C7's amended theorem at the non-integer number 1.5. -/
theorem formatQ_in_range_ok_witness :
    (0 : ℚ) ≤ 3 / 2 ∧ (3 : ℚ) / 2 ≤ 4294967295 ∧
    (∃ s, ipv4NumberToDotNotationQ (3 / 2) = .ok s) :=
  ⟨by norm_num, by norm_num, formatQ_in_range_ok (3 / 2) (by norm_num) (by norm_num)⟩

/-- Counterexample to C7 as stated: 1.5 (= 3/2) is not integer-valued,
yet the formatter does not throw a `TypeError` — it returns the string
"0.0.0.1.5", the fractional part surviving in the last octet. -/
theorem formatQ_nonintegral_formats :
    ((3 : ℚ) / 2) ≠ ((⌊(3 : ℚ) / 2⌋ : ℤ) : ℚ) ∧
    ipv4NumberToDotNotationQ (3 / 2) = .ok "0.0.0.1.5".data := by
  have hfl : (⌊(3 : ℚ) / 2⌋ : ℤ) = 1 := by norm_num [Int.floor_eq_iff]
  have h512 : (⌊(3 : ℚ) / 2 / 256⌋ : ℤ) = 0 := by norm_num [Int.floor_eq_iff]
  have hB : ((⌊(3 : ℚ) / 2 / 256⌋ : ℤ) : ℚ) = 0 := by rw [h512]; norm_num
  have hD : ((⌊(0 : ℚ) / 256⌋ : ℤ) : ℚ) = 0 := by norm_num
  have hA : jsModQ (3 / 2) 256 = 3 / 2 := by
    simp only [jsModQ, h512]
    norm_num
  have hC : jsModQ 0 256 = 0 := by
    simp only [jsModQ]
    norm_num
  have hhalfne : ¬ ((1 / 2 : ℚ) = 0) := by norm_num
  have hfr : fracDigits 64 (1 / 2 : ℚ) = ['5'] := by
    have h5 : (⌊(1 / 2 : ℚ) * 10⌋ : ℤ) = 5 := by norm_num
    have hrem : ((1 : ℚ) / 2) * 10 - ((5 : ℤ) : ℚ) = 0 := by push_cast; norm_num
    show fracDigits (63 + 1) (1 / 2 : ℚ) = ['5']
    simp only [fracDigits, h5, if_neg hhalfne, hrem]
    show digitCh (5 : ℤ).toNat :: fracDigits (62 + 1) 0 = ['5']
    simp only [fracDigits, eq_self_iff_true, if_true]
    decide
  have hqd : qToDecimal (3 / 2) = '1' :: '.' :: '5' :: [] := by
    have hsub : (3 : ℚ) / 2 - ((1 : ℤ) : ℚ) = 1 / 2 := by push_cast; norm_num
    simp only [qToDecimal, hfl, hsub, if_neg hhalfne, hfr]
    decide
  have hq0 : qToDecimal 0 = ['0'] := by
    have hc0 : (0 : ℚ) - ((0 : ℤ) : ℚ) = 0 := by norm_num
    simp only [qToDecimal, Int.floor_zero, hc0, eq_self_iff_true, if_true]
    decide
  constructor
  · rw [hfl]; norm_num
  · have hno : ¬ ((3 : ℚ) / 2 < 0 ∨ (4294967295 : ℚ) < 3 / 2) := by norm_num
    simp only [ipv4NumberToDotNotationQ, if_neg hno]
    rw [hB, hD, hD, hA, hC, hqd, hq0]
    decide

/-- C10: an Address built from an accepted string keeps the caller's
exact string as its string form — `toString()` echoes it verbatim, never
re-formatting from the numeric value. -/
theorem ip_string_keeps_input_verbatim (s : List Char) (v : Nat)
    (h : ipv4DotNotationToNumber s = .ok v) :
    ip (.str s) = .ok { numeric := v, notationStr := s } := by
  simp [ip, h, Except.map]

/-- Witness for C10 at the non-canonical accepted input "127.00.0.1". -/
theorem ip_string_keeps_input_verbatim_witness :
    ipv4DotNotationToNumber "127.00.0.1".data = .ok 2130706433 ∧
    ip (.str "127.00.0.1".data) =
      .ok { numeric := 2130706433, notationStr := "127.00.0.1".data } :=
  ⟨by decide, ip_string_keeps_input_verbatim _ _ (by decide)⟩
